import Mathlib

/-!
# Verification of the GitHub branch-out workspace automation script

Shallow embedding of `src/scripts/BranchOut-Feature-Workspace-Automation-GitHub.py`.
Each helper of the script is modelled as a pure Lean function over scripted HTTP
responses: a response to one request is `Option Nat` (the status code, `none`
standing for a transport-level `RequestException`) or `Option (Nat × body)` when
the body matters.  Result records track which requests the function issued, so
that claims about "no request is issued" are statable.
-/

namespace BranchOut

/-- `requests.Response.raise_for_status` raises `HTTPError` exactly for
4xx and 5xx status codes. -/
def raise_for_status_raises (s : Nat) : Bool :=
  decide (400 ≤ s) && decide (s < 600)

/-- `requests.Response.ok`: a status that `raise_for_status` does not treat as an
HTTP error.  For the valid status range (`s < 600`) this is `s < 400`. -/
def success_status (s : Nat) : Bool :=
  decide (s < 400)

/-! ## Long-running-operation poller (source lines 279-305)

The poll loop is driven by a scripted list of status strings, one per fetch.
`none` as overall result means the script was exhausted while the loop still
wanted to poll (the real loop would keep fetching forever on such an
environment).  `PollOutcome.returned` is the Python return value: `some st` for
the `return operation_state['status']` on a non-`Failed` terminal status, and
`none` for the `Failed` branch, which logs and falls off the end (returns
`None`). -/

/-- Result of one run of the polling loop. -/
structure PollOutcome where
  /-- number of `requests.get` status fetches issued -/
  fetches : Nat
  /-- durations of the `time.sleep` calls, in order -/
  sleeps : List Nat
  /-- the Python return value: `some status` or `none` -/
  returned : Option String
  /-- whether the `Failed` error payload was logged -/
  logged_error : Bool
  deriving Repr, DecidableEq

/-- Embedding of `long_running_operation_polling(uri, retry_after, headers)`:
fetch the next scripted status; while it is `NotStarted` or `Running`, sleep
`retry_after` and fetch again; at the first other status stop: if it is
`Failed`, log the error payload and return `None`, otherwise return the
status. -/
def long_running_operation_polling (retry_after : Nat) :
    List String → Option PollOutcome
  | [] => none
  | st :: rest =>
    if st = "NotStarted" ∨ st = "Running" then
      match long_running_operation_polling retry_after rest with
      | none => none
      | some r =>
        some ⟨r.fetches + 1, retry_after :: r.sleeps, r.returned, r.logged_error⟩
    else
      some ⟨1, [], if st = "Failed" then none else some st, st == "Failed"⟩

/-- A status on which the loop keeps polling. -/
def nonterminal (st : String) : Prop :=
  st = "NotStarted" ∨ st = "Running"

instance : DecidablePred nonterminal := fun st =>
  inferInstanceAs (Decidable (st = "NotStarted" ∨ st = "Running"))

/-! ## Fabric workspace creation (source lines 51-71)

`create_fabric_workspace` posts the create request; its response is scripted as
`Option (Nat × Option String)`: `none` for a transport `RequestException`
(caught, the function returns `None`), otherwise the status code and the `id`
field of the JSON body.  Status 409 raises `ValueError`, status 201 returns the
body id, anything else returns `None`. -/

/-- Embedding of `create_fabric_workspace(workspace_name, cpty_id, token)`.
`Except.error` is the raised `ValueError`; `.ok none` is the Python `None`
return (not-created), `.ok (some wid)` the returned workspace id. -/
def create_fabric_workspace (resp : Option (Nat × Option String)) :
    Except String (Option String) :=
  match resp with
  | none => .ok none
  | some (s, body_id) =>
    if s = 409 then
      .error "Fabric workspace already exists. Please specify a new workspace as target."
    else if s = 201 then .ok body_id
    else .ok none

/-! ## GitHub branch helpers (source lines 100-153) -/

/-- Embedding of `branch_exists(owner, repo_name, branch_name, token)`: the
scripted reference-lookup response is `none` on a transport
`RequestException` (caught, returns `False`); otherwise the status code, and
the function returns whether it equals 200. -/
def branch_exists (resp : Option Nat) : Bool :=
  match resp with
  | none => false
  | some s => s == 200

/-- Scripted environment for one `create_github_branch` call: the
reference-lookup response for the new branch, the outcome of
`get_github_branch_sha` for the base branch (`none` covers transport failure
and HTTP error there, both of which make it return `None`), and the
reference-creation response. -/
structure GithubEnv where
  lookup_new_resp : Option Nat
  base_sha_resp : Option String
  create_resp : Option Nat
  deriving Repr

/-- What a `create_github_branch` call did: whether the reference-creation
POST was issued, and whether the call returned normally or raised. -/
structure CreateBranchOutcome where
  create_issued : Bool
  result : Except String Unit

/-- Embedding of `create_github_branch(owner, repo_name, main_branch,
new_branch, token)`: empty token raises; an existing branch is a silent
no-op; a falsy base SHA raises; otherwise the creation POST is issued and a
4xx/5xx (or transport failure, which the function re-raises) is an error. -/
def create_github_branch (env : GithubEnv) (token : String) :
    CreateBranchOutcome :=
  if token = "" then
    ⟨false, .error "GitHub PAT token is required to create branches."⟩
  else if branch_exists env.lookup_new_resp then ⟨false, .ok ()⟩
  else
    match env.base_sha_resp with
    | none => ⟨false, .error "Could not find base branch"⟩
    | some sha =>
      if sha = "" then ⟨false, .error "Could not find base branch"⟩
      else
        match env.create_resp with
        | none => ⟨true, .error "Error creating GitHub branch"⟩
        | some s =>
          ⟨true, if raise_for_status_raises s then
              .error "Error creating GitHub branch" else .ok ()⟩

/-! A small model of the GitHub server state, to state idempotence of branch
creation: a repository is a list of `(branch name, head SHA)` pairs, and the
scripted responses of `create_github_branch` are derived from it. -/

/-- Status of the reference lookup against a repository state: 200 when the
branch is present, 404 otherwise. -/
def lookup_status (repo : List (String × String)) (name : String) : Nat :=
  if (repo.find? (fun b => b.1 == name)).isSome then 200 else 404

/-- Head SHA of a branch in the repository state, as `get_github_branch_sha`
observes it (`none` when the branch is absent: the lookup 404s and the helper
returns `None`). -/
def repo_sha (repo : List (String × String)) (name : String) : Option String :=
  (repo.find? (fun b => b.1 == name)).map (fun b => b.2)

/-- The scripted environment that a repository state presents to
`create_github_branch`: the new-branch lookup answers from the state, the base
SHA comes from the state, and a reference creation succeeds (201). -/
def env_of_repo (repo : List (String × String)) (main_branch new_branch : String) :
    GithubEnv :=
  ⟨some (lookup_status repo new_branch), repo_sha repo main_branch, some 201⟩

/-- One `create_github_branch` call against the repository state: when the
creation POST is issued and succeeds, the server adds the new reference
pointing at the base branch's head SHA. -/
def run_create_branch (repo : List (String × String))
    (main_branch new_branch token : String) :
    List (String × String) × Except String Unit :=
  let out := create_github_branch (env_of_repo repo main_branch new_branch) token
  match out.create_issued, out.result, repo_sha repo main_branch with
  | true, .ok _, some sha => ((new_branch, sha) :: repo, out.result)
  | _, _, _ => (repo, out.result)

/-! ## Fabric connections (source lines 165-229) -/

/-- A JSON value, as far as the script inspects one. -/
inductive Json where
  | null
  | jbool (b : Bool)
  | num (n : Int)
  | str (s : String)
  | arr (xs : List Json)
  | obj (fields : List (String × Json))

/-- Python `"value" in data` / `data["value"]` on a JSON object. -/
def lookup_key : List (String × Json) → String → Option Json
  | [], _ => none
  | (k, v) :: rest, key => if k == key then some v else lookup_key rest key

/-- Body handling of `list_connections` (source lines 170-177): a dict with a
`"value"` key yields that value, a bare list yields itself, anything else
yields the empty list. -/
def extract_connection_list (data : Json) : Json :=
  match data with
  | .obj fields =>
    match lookup_key fields "value" with
    | some v => v
    | none => .arr []
  | .arr xs => .arr xs
  | _ => .arr []

/-- Embedding of `list_connections(token)`: a transport failure or an HTTP
error status (via `raise_for_status`) yields the empty list; otherwise the
body is parsed shape-tolerantly. -/
def list_connections (resp : Option (Nat × Json)) : Json :=
  match resp with
  | none => .arr []
  | some (s, data) =>
    if raise_for_status_raises s then .arr [] else extract_connection_list data

/-- A connection entry as the resolver reads it: the `displayName` and `id`
fields of the JSON object, each possibly absent. -/
structure Connection where
  displayName : Option String
  id : Option String
  deriving Repr, DecidableEq

/-- What a resolver call did: whether the connection-creation POST was issued,
and the returned connection id (`none` is the Python `None`). -/
structure ResolveOutcome where
  create_issued : Bool
  result : Option String
  deriving Repr, DecidableEq

/-- The `for c in connections` loop of `get_or_create_github_pat_connection`:
return the id of the first entry whose `displayName` equals the requested name
and whose id is truthy; entries whose id is falsy do not stop the loop. -/
def find_connection_id : List Connection → String → Option String
  | [], _ => none
  | c :: rest, name =>
    if c.displayName == some name then
      match c.id with
      | some i => if i = "" then find_connection_id rest name else some i
      | none => find_connection_id rest name
    else find_connection_id rest name

/-- Embedding of `get_or_create_github_pat_connection(connection_name,
pat_token, token)`: a falsy PAT returns `None`; a match in the listed
connections is returned without any creation request; otherwise the creation
POST is issued (`conn_create_resp` scripts its status and body id) and only a
201 yields an id. -/
def get_or_create_github_pat_connection (connection_name pat_token : String)
    (conns : List Connection) (conn_create_resp : Option (Nat × Option String)) :
    ResolveOutcome :=
  if pat_token = "" then ⟨false, none⟩
  else
    match find_connection_id conns connection_name with
    | some i => ⟨false, some i⟩
    | none =>
      ⟨true,
        match conn_create_resp with
        | none => none
        | some (s, body_id) => if s = 201 then body_id else none⟩

/-! ## Workspace-branch linking (source lines 234-274) -/

/-- Python `git_folder.rstrip("/")`: strip all trailing `/` characters. -/
def rstrip_slash (s : String) : String :=
  String.mk (List.reverse (List.dropWhile (fun c => c == '/') s.data.reverse))

/-- The folder-path normalization of `connect_branch_to_workspace` (source
line 241): `git_folder.rstrip("/") if git_folder and git_folder not in
("/", "\\") else ""`. -/
def normalize_git_folder (git_folder : String) : String :=
  if git_folder ≠ "" ∧ git_folder ≠ "/" ∧ git_folder ≠ "\\" then
    rstrip_slash git_folder
  else ""

/-- What a `connect_branch_to_workspace` call did: the normalized directory
name it sent, whether the resolver issued a connection-creation POST, whether
the git-connect POST was issued, and whether the call returned normally or
raised. -/
structure ConnectOutcome where
  directory_name : String
  resolve_create_issued : Bool
  connect_issued : Bool
  result : Except String Unit

/-- Embedding of `connect_branch_to_workspace(workspace_id, org_name,
repo_name, branch_name, git_folder, token)`: normalize the folder, resolve
(or create) the `"GitHub PAT - <owner>/<repo>"` connection, raise when no
truthy connection id was obtained, then POST the connect request: a transport
failure re-raises, a non-200 status logs and calls `raise_for_status`, which
raises exactly on 4xx/5xx. -/
def connect_branch_to_workspace (org_name repo_name git_folder pat_token : String)
    (conns : List Connection) (conn_create_resp : Option (Nat × Option String))
    (connect_resp : Option Nat) : ConnectOutcome :=
  let directory_name := normalize_git_folder git_folder
  let connection_display_name := "GitHub PAT - " ++ org_name ++ "/" ++ repo_name
  let rr := get_or_create_github_pat_connection connection_display_name pat_token
    conns conn_create_resp
  match rr.result with
  | none =>
    ⟨directory_name, rr.create_issued, false,
      .error "Could not obtain/create GitHub credentials connection."⟩
  | some cid =>
    if cid = "" then
      ⟨directory_name, rr.create_issued, false,
        .error "Could not obtain/create GitHub credentials connection."⟩
    else
      match connect_resp with
      | none =>
        ⟨directory_name, rr.create_issued, true, .error "RequestException"⟩
      | some s =>
        if s = 200 then ⟨directory_name, rr.create_issued, true, .ok ()⟩
        else if raise_for_status_raises s then
          ⟨directory_name, rr.create_issued, true, .error "Git connect failed"⟩
        else ⟨directory_name, rr.create_issued, true, .ok ()⟩

/-! ## Main flow (source lines 426-476) -/

/-- The provisioning calls `main` can issue, in program order. -/
inductive Step where
  | createWorkspace
  | addAdmin
  | createBranch
  | connectWorkspace
  | gitInitialize
  deriving Repr, DecidableEq

/-- Scripted environment for one `main` run: the bound CLI parameters that
determine the auth outcome, and the responses every downstream operation
sees. -/
structure MainEnv where
  gh_pat_token : String
  fabric_token : String
  /-- result of `acquire_token_user_id_password` (`none`: no access token) -/
  acquire_result : Option String
  workspace_resp : Option (Nat × Option String)
  gh_env : GithubEnv
  conns : List Connection
  conn_create_resp : Option (Nat × Option String)
  connect_resp : Option Nat
  git_folder : String
  org_name : String
  repo_name : String

/-- The bearer token `main` ends up with after the `if not token` check:
a truthy `FABRIC_TOKEN` is used as-is, otherwise the acquired token, and a
falsy token (`None` or empty) is `none` here. -/
def effective_token (env : MainEnv) : Option String :=
  if env.fabric_token ≠ "" then some env.fabric_token
  else
    match env.acquire_result with
    | none => none
    | some t => if t = "" then none else some t

/-- Embedding of `main()`: the ordered list of provisioning calls issued, and
whether the run completed or raised.  A missing PAT and a falsy token raise
before anything is issued; a workspace-creation error or falsy workspace id
raises after the creation call; the admin grant is best-effort; branch
creation and connect raise on their errors; git initialization never
raises. -/
def main_run (env : MainEnv) : List Step × Except String Unit :=
  if env.gh_pat_token = "" then
    ([], .error "GitHub PAT token was not provided. Set --GH_PAT_TOKEN.")
  else
    match effective_token env with
    | none =>
      ([], .error "Could not generate authentication token. Please review the debug logs.")
    | some _tok =>
      match create_fabric_workspace env.workspace_resp with
      | .error m => ([.createWorkspace], .error m)
      | .ok none => ([.createWorkspace], .error "Could not create Fabric workspace.")
      | .ok (some wid) =>
        if wid = "" then ([.createWorkspace], .error "Could not create Fabric workspace.")
        else
          match (create_github_branch env.gh_env env.gh_pat_token).result with
          | .error m =>
            ([.createWorkspace, .addAdmin, .createBranch], .error m)
          | .ok _ =>
            match (connect_branch_to_workspace env.org_name env.repo_name
                env.git_folder env.gh_pat_token env.conns env.conn_create_resp
                env.connect_resp).result with
            | .error m =>
              ([.createWorkspace, .addAdmin, .createBranch, .connectWorkspace],
                .error m)
            | .ok _ =>
              ([.createWorkspace, .addAdmin, .createBranch, .connectWorkspace,
                .gitInitialize], .ok ())

end BranchOut

namespace BranchOut

/-- C1 -- For a scripted status sequence whose first entry outside
`{NotStarted, Running}` occurs after `pre.length` non-terminal entries, the
poller issues exactly `pre.length + 1` status fetches, sleeps the given retry
interval between consecutive fetches (`pre.length` sleeps of `retry` seconds),
and stops at that first terminal status: it returns the status unless it is
`Failed`, in which case it logs the error payload and returns `None` without
raising. -/
theorem polling_stops_at_first_terminal
    (retry : Nat) (pre : List String) (t : String) (rest : List String)
    (hpre : ∀ s ∈ pre, nonterminal s) (ht : ¬ nonterminal t) :
    long_running_operation_polling retry (pre ++ t :: rest) =
      some ⟨pre.length + 1, List.replicate pre.length retry,
            if t = "Failed" then none else some t, t == "Failed"⟩ := by
  induction pre with
  | nil =>
    have ht' : ¬(t = "NotStarted" ∨ t = "Running") := ht
    simp only [List.nil_append, long_running_operation_polling, if_neg ht']
    rfl
  | cons s pre ih =>
    have hs : s = "NotStarted" ∨ s = "Running" := hpre s (List.mem_cons_self s pre)
    have hpre' : ∀ x ∈ pre, nonterminal x := fun x hx =>
      hpre x (List.mem_cons_of_mem s hx)
    simp only [List.cons_append, long_running_operation_polling, if_pos hs,
      List.append_eq]
    rw [ih hpre']
    simp [List.replicate_succ]

/-- Witness for C1: on the script `Running, Running, Succeeded` the poller
issues exactly three fetches, two sleeps of 15 seconds, and returns
`Succeeded`; on `Running, Failed` it issues two fetches, logs the error payload
and returns `None`. -/
theorem polling_stops_at_first_terminal_witness :
    long_running_operation_polling 15 (["Running", "Running"] ++ "Succeeded" :: []) =
      some ⟨3, [15, 15], some "Succeeded", false⟩ ∧
    long_running_operation_polling 15 (["Running"] ++ "Failed" :: []) =
      some ⟨2, [15], none, true⟩ := by
  constructor
  · have h := polling_stops_at_first_terminal 15 ["Running", "Running"]
      "Succeeded" [] (by decide) (by decide)
    simpa using h
  · have h := polling_stops_at_first_terminal 15 ["Running"] "Failed" []
      (by decide) (by decide)
    simpa using h

/-- C10 -- When the first terminal status the poller observes is `Failed`, the
function returns no status value (`None`); and whenever a run of the loop does
return a status, that status is not `Failed`. -/
theorem polling_failed_returns_none
    (retry : Nat) (pre : List String) (rest script : List String)
    (r : PollOutcome) (st : String)
    (hpre : ∀ s ∈ pre, nonterminal s)
    (hrun : long_running_operation_polling retry script = some r)
    (hret : r.returned = some st) :
    (long_running_operation_polling retry (pre ++ "Failed" :: rest)).map
        PollOutcome.returned = some none ∧
    st ≠ "Failed" := by
  constructor
  · rw [polling_stops_at_first_terminal retry pre "Failed" rest hpre (by decide)]
    simp
  · induction script generalizing r with
    | nil => simp [long_running_operation_polling] at hrun
    | cons x xs ih =>
      by_cases hx : x = "NotStarted" ∨ x = "Running"
      · rw [long_running_operation_polling, if_pos hx] at hrun
        cases hxs : long_running_operation_polling retry xs with
        | none => rw [hxs] at hrun; exact absurd hrun (by simp)
        | some r' =>
          rw [hxs] at hrun
          simp only [Option.some.injEq] at hrun
          subst hrun
          exact ih r' hxs (by simpa using hret)
      · rw [long_running_operation_polling, if_neg hx] at hrun
        simp only [Option.some.injEq] at hrun
        subst hrun
        simp only at hret
        by_cases hf : x = "Failed"
        · rw [if_pos hf] at hret; exact absurd hret (by simp)
        · rw [if_neg hf] at hret
          intro hst
          apply hf
          rw [Option.some_inj.mp hret, hst]

/-- Witness for C10: on the script `Running, Failed` the poller returns `None`,
and a run on `Running, Succeeded` returns `Succeeded`, which is not `Failed`. -/
theorem polling_failed_returns_none_witness :
    (long_running_operation_polling 15 (["Running"] ++ "Failed" :: [])).map
        PollOutcome.returned = some none ∧
    "Succeeded" ≠ "Failed" :=
  polling_failed_returns_none 15 ["Running"] [] ["Running", "Succeeded"]
    ⟨2, [15], some "Succeeded", false⟩ "Succeeded" (by decide) (by decide) rfl

/-- C3 -- When the provider reports a name conflict (status 409),
`create_fabric_workspace` raises the distinct "already exists" `ValueError`
rather than returning an identifier or silently overwriting; moreover this
conflict is the only input on which the function raises at all, so the error
is distinct from every other failure outcome. -/
theorem workspace_conflict_raises_distinct_error :
    (∀ body_id : Option String,
      create_fabric_workspace (some (409, body_id)) =
        .error "Fabric workspace already exists. Please specify a new workspace as target.") ∧
    (∀ (resp : Option (Nat × Option String)) (m : String),
      create_fabric_workspace resp = .error m →
        m = "Fabric workspace already exists. Please specify a new workspace as target." ∧
        ∃ b, resp = some (409, b)) := by
  constructor
  · intro body_id; rfl
  · intro resp m h
    match resp with
    | none => exact absurd h (by simp [create_fabric_workspace])
    | some (s, b) =>
      by_cases h409 : s = 409
      · subst h409
        refine ⟨?_, b, rfl⟩
        simpa [create_fabric_workspace] using h.symm
      · exact absurd h (by by_cases h201 : s = 201 <;>
          simp [create_fabric_workspace, h409, h201])

/-- Witness for C3: the 409 response with body id `"w"` yields the
"already exists" error, and the second conjunct applied to it recovers the
conflict response. -/
theorem workspace_conflict_raises_distinct_error_witness :
    create_fabric_workspace (some (409, some "w")) =
      .error "Fabric workspace already exists. Please specify a new workspace as target." ∧
    ∃ b, (some (409, some "w") : Option (Nat × Option String)) = some (409, b) :=
  ⟨workspace_conflict_raises_distinct_error.1 (some "w"),
    (workspace_conflict_raises_distinct_error.2 (some (409, some "w")) _
      (workspace_conflict_raises_distinct_error.1 (some "w"))).2⟩

/-- C8 -- `branch_exists` treats a transport-level failure of the
reference-lookup request as "branch does not exist" (returns `false`, raising
no exception: the embedding is a total `Bool`-valued function), and it returns
`true` exactly when the lookup responds with HTTP status 200. -/
theorem branch_exists_transport_failure_false (resp : Option Nat) :
    (resp = none → branch_exists resp = false) ∧
    (branch_exists resp = true ↔ resp = some 200) := by
  constructor
  · rintro rfl; rfl
  · cases resp with
    | none => simp [branch_exists]
    | some s => simp [branch_exists]

/-- Witness for C8: a transport failure yields `false`, and a 200 response
yields `true`. -/
theorem branch_exists_transport_failure_false_witness :
    branch_exists none = false ∧ branch_exists (some 200) = true :=
  ⟨(branch_exists_transport_failure_false none).1 rfl,
    (branch_exists_transport_failure_false (some 200)).2.mpr rfl⟩

/-- C5 -- The folder-path normalization used by
`connect_branch_to_workspace` maps each of `"/"`, `"\\"` (a single backslash)
and `""` to the empty directory designator `""`, and maps every other input to
itself with trailing `/` separators stripped; in particular `"a/b/"`
normalizes to `"a/b"`. -/
theorem folder_normalization (s : String)
    (h0 : s ≠ "") (h1 : s ≠ "/") (h2 : s ≠ "\\") :
    normalize_git_folder "/" = "" ∧ normalize_git_folder "\\" = "" ∧
    normalize_git_folder "" = "" ∧ normalize_git_folder "a/b/" = "a/b" ∧
    normalize_git_folder s = rstrip_slash s := by
  refine ⟨rfl, rfl, rfl, by decide, ?_⟩
  unfold normalize_git_folder
  rw [if_pos ⟨h0, h1, h2⟩]

/-- Witness for C5: at input `"a/b/"` the normalization agrees with stripping
the trailing separator, yielding `"a/b"`. -/
theorem folder_normalization_witness :
    normalize_git_folder "a/b/" = rstrip_slash "a/b/" ∧ rstrip_slash "a/b/" = "a/b" :=
  ⟨(folder_normalization "a/b/" (by decide) (by decide) (by decide)).2.2.2.2,
    by decide⟩

/-- C7 -- `list_connections` returns the same connection list whether the
provider's 200 response body is a bare JSON collection or a collection wrapped
under the `"value"` container key: for every list `L`, parsing `L` directly
and parsing `{"value": L}` both yield `L`. -/
theorem list_connections_shape_tolerance (L : List Json) :
    list_connections (some (200, .arr L)) = .arr L ∧
    list_connections (some (200, .obj [("value", .arr L)])) = .arr L := by
  constructor <;> rfl

/-- The resolver's scan loop returns the id of the first display-name match
when that first match carries a truthy id. -/
lemma find_connection_id_of_find? (name cid : String)
    (conns : List Connection) (c : Connection)
    (hfirst : conns.find? (fun x => x.displayName == some name) = some c)
    (hcid : c.id = some cid) (hne : cid ≠ "") :
    find_connection_id conns name = some cid := by
  induction conns with
  | nil => simp at hfirst
  | cons c' rest ih =>
    rw [List.find?_cons] at hfirst
    by_cases hm : (c'.displayName == some name) = true
    · simp only [hm] at hfirst
      have hc : c' = c := by simpa using hfirst
      subst hc
      rw [find_connection_id, if_pos hm, hcid]
      simp [hne]
    · have hm' : (c'.displayName == some name) = false := by
        simpa using hm
      simp only [hm'] at hfirst
      rw [find_connection_id, if_neg (by simp [hm'])]
      exact ih hfirst

/-- C6 -- When the listed connections contain an entry whose display name
equals the requested name, `get_or_create_github_pat_connection` (called with
the PAT that `main` guarantees non-empty) returns the connection id of the
first such entry and issues no creation request; since no state changes, a
second call with the same display name returns the same id and never creates
a duplicate. -/
theorem connection_first_match_reused
    (name pat cid : String) (conns : List Connection) (c : Connection)
    (conn_create_resp : Option (Nat × Option String))
    (hpat : pat ≠ "")
    (hfirst : conns.find? (fun x => x.displayName == some name) = some c)
    (hcid : c.id = some cid) (hne : cid ≠ "") :
    get_or_create_github_pat_connection name pat conns conn_create_resp =
      ⟨false, some cid⟩ := by
  unfold get_or_create_github_pat_connection
  rw [if_neg hpat, find_connection_id_of_find? name cid conns c hfirst hcid hne]

/-- Witness for C6: with two entries named `"GitHub PAT - o/r"`, the resolver
returns the first entry's id `"c1"` and issues no creation request. -/
theorem connection_first_match_reused_witness :
    get_or_create_github_pat_connection "GitHub PAT - o/r" "p"
        [⟨some "GitHub PAT - o/r", some "c1"⟩, ⟨some "GitHub PAT - o/r", some "c2"⟩]
        (some (201, some "c3")) = ⟨false, some "c1"⟩ :=
  connection_first_match_reused "GitHub PAT - o/r" "p" "c1"
    [⟨some "GitHub PAT - o/r", some "c1"⟩, ⟨some "GitHub PAT - o/r", some "c2"⟩]
    ⟨some "GitHub PAT - o/r", some "c1"⟩ (some (201, some "c3"))
    (by decide) (by decide) rfl (by decide)

/-- C2 -- Given that the credential-connection resolution yields a truthy
connection id, `connect_branch_to_workspace` completes normally exactly when
the git-connect request returns a success status (in the sense of
`requests.Response.ok`: a status that is not an HTTP error, i.e. `< 400` over
the valid range `< 600`); every non-success response makes it raise, aborting
the run. -/
theorem connect_nonsuccess_aborts
    (org_name repo_name git_folder pat cid : String) (conns : List Connection)
    (conn_create_resp : Option (Nat × Option String)) (s : Nat)
    (hres : (get_or_create_github_pat_connection
        ("GitHub PAT - " ++ org_name ++ "/" ++ repo_name) pat conns
        conn_create_resp).result = some cid)
    (hcid : cid ≠ "") (hs : s < 600) :
    ((connect_branch_to_workspace org_name repo_name git_folder pat conns
        conn_create_resp (some s)).result = .ok ()) ↔ success_status s = true := by
  unfold connect_branch_to_workspace
  simp only [hres]
  rw [if_neg hcid]
  by_cases h200 : s = 200
  · subst h200
    simp [success_status]
  · rw [if_neg h200]
    by_cases hr : raise_for_status_raises s = true
    · rw [if_pos hr]
      simp only [raise_for_status_raises, Bool.and_eq_true, decide_eq_true_eq] at hr
      simp only [success_status, decide_eq_true_eq]
      constructor
      · intro habs; exact absurd habs (by simp)
      · intro hlt; omega
    · rw [if_neg hr]
      simp only [raise_for_status_raises, Bool.and_eq_true, decide_eq_true_eq,
        not_and, not_lt] at hr
      simp only [success_status, decide_eq_true_eq]
      constructor
      · intro _; omega
      · intro _; trivial

/-- Witness for C2: with a resolvable connection `"c1"`, a 503 response to the
git-connect request is not a success status and the call raises (does not
complete normally). -/
theorem connect_nonsuccess_aborts_witness :
    ¬ ((connect_branch_to_workspace "o" "r" "f" "p"
        [⟨some "GitHub PAT - o/r", some "c1"⟩] none (some 503)).result = .ok ()) :=
  fun h =>
    absurd ((connect_nonsuccess_aborts "o" "r" "f" "p" "c1"
      [⟨some "GitHub PAT - o/r", some "c1"⟩] none 503 (by decide) (by decide)
      (by decide)).mp h) (by decide)

/-- A `create_github_branch` run against a repository state that already
contains the new branch is a no-op: the state is unchanged and the call
succeeds. -/
lemma run_create_branch_noop (repo : List (String × String))
    (main_b new_b token : String) (htok : token ≠ "")
    (hfind : (repo.find? (fun b => b.1 == new_b)).isSome) :
    run_create_branch repo main_b new_b token = (repo, .ok ()) := by
  unfold run_create_branch create_github_branch env_of_repo
  rw [if_neg htok]
  have hlu : lookup_status repo new_b = 200 := by
    unfold lookup_status; rw [if_pos hfind]
  simp [branch_exists, hlu]

/-- A `create_github_branch` run against a repository state without the new
branch but with a resolvable base branch creates exactly one new reference at
the base head SHA. -/
lemma run_create_branch_creates (repo : List (String × String))
    (main_b new_b sha token : String) (htok : token ≠ "")
    (hfind : repo.find? (fun b => b.1 == new_b) = none)
    (hmain : repo.find? (fun b => b.1 == main_b) = some (main_b, sha))
    (hsha : sha ≠ "") :
    run_create_branch repo main_b new_b token = ((new_b, sha) :: repo, .ok ()) := by
  unfold run_create_branch create_github_branch env_of_repo
  rw [if_neg htok]
  have hlu : lookup_status repo new_b = 404 := by
    unfold lookup_status
    rw [if_neg (by simp [hfind])]
  have hsh : repo_sha repo main_b = some sha := by
    unfold repo_sha; rw [hmain]; rfl
  simp [branch_exists, hlu, hsh, if_neg hsha, raise_for_status_raises]

/-- C4 -- When the target new-branch name already exists (the reference lookup
answers 200), `create_github_branch` performs no reference-creation request
and returns normally; consequently, against the repository-state model,
invoking branch creation twice with the same new-branch name leaves exactly
one branch of that name. -/
theorem branch_creation_idempotent
    (env : GithubEnv) (token : String) (repo : List (String × String))
    (main_b new_b sha : String)
    (htok : token ≠ "")
    (hlu : env.lookup_new_resp = some 200)
    (hmain : repo.find? (fun b => b.1 == main_b) = some (main_b, sha))
    (hsha : sha ≠ "")
    (hcount : (repo.filter (fun b => b.1 == new_b)).length ≤ 1) :
    create_github_branch env token = ⟨false, .ok ()⟩ ∧
    ((run_create_branch (run_create_branch repo main_b new_b token).1
        main_b new_b token).1.filter (fun b => b.1 == new_b)).length = 1 := by
  constructor
  · unfold create_github_branch
    rw [if_neg htok, hlu]
    simp [branch_exists]
  · by_cases hfind : repo.find? (fun b => b.1 == new_b) = none
    · have hnil : repo.filter (fun b => b.1 == new_b) = [] := by
        rw [List.filter_eq_nil_iff]
        exact fun a ha => by simpa using List.find?_eq_none.mp hfind a ha
      rw [run_create_branch_creates repo main_b new_b sha token htok hfind hmain hsha]
      have hfind2 : (((new_b, sha) :: repo).find?
          (fun b => b.1 == new_b)).isSome := by
        rw [List.find?_cons_of_pos _ (by simp)]
        rfl
      rw [run_create_branch_noop ((new_b, sha) :: repo) main_b new_b token htok hfind2]
      simp [List.filter_cons, hnil]
    · have hfind' : (repo.find? (fun b => b.1 == new_b)).isSome := by
        cases h : repo.find? (fun b => b.1 == new_b) with
        | none => exact absurd h hfind
        | some x => rfl
      rw [run_create_branch_noop repo main_b new_b token htok hfind',
          run_create_branch_noop repo main_b new_b token htok hfind']
      rcases Option.isSome_iff_exists.mp hfind' with ⟨x, hx⟩
      have hmemx := List.mem_of_find?_eq_some hx
      have hpx := List.find?_some hx
      have hmem : x ∈ repo.filter (fun b => b.1 == new_b) :=
        List.mem_filter.mpr ⟨hmemx, hpx⟩
      have hpos : 0 < (repo.filter (fun b => b.1 == new_b)).length :=
        List.length_pos.mpr (fun hnil => by rw [hnil] at hmem; exact absurd hmem (by simp))
      exact Nat.le_antisymm hcount hpos

/-- Witness for C4: for the repository `[("main", "abc")]` and new branch
`"feat"`, the call with an exists-answering lookup is a no-op success, and two
runs against the state leave exactly one `"feat"` branch. -/
theorem branch_creation_idempotent_witness :
    create_github_branch ⟨some 200, some "abc", some 201⟩ "t" = ⟨false, .ok ()⟩ ∧
    ((run_create_branch (run_create_branch [("main", "abc")] "main" "feat" "t").1
        "main" "feat" "t").1.filter (fun b => b.1 == "feat")).length = 1 :=
  branch_creation_idempotent ⟨some 200, some "abc", some 201⟩ "t"
    [("main", "abc")] "main" "feat" "abc" (by decide) rfl (by decide) (by decide)
    (by decide)

/-- C9 -- When the PAT token is missing or no authentication token can be
obtained, `main` raises a fatal error before any provisioning call (workspace
creation, admin grant, branch creation, connect, git-initialize) is issued:
the provisioning trace is empty and the run ends in an error. -/
theorem auth_failure_before_provisioning (env : MainEnv)
    (h : env.gh_pat_token = "" ∨ effective_token env = none) :
    (main_run env).1 = [] ∧ ∃ m, (main_run env).2 = .error m := by
  unfold main_run
  rcases h with h | h
  · rw [if_pos h]
    exact ⟨rfl, _, rfl⟩
  · by_cases hp : env.gh_pat_token = ""
    · rw [if_pos hp]
      exact ⟨rfl, _, rfl⟩
    · rw [if_neg hp, h]
      exact ⟨rfl, _, rfl⟩

/-- Witness for C9: a run with no PAT token issues no provisioning call and
ends in an error. -/
theorem auth_failure_before_provisioning_witness :
    (main_run ⟨"", "", none, none, ⟨none, none, none⟩, [], none, none,
        "", "", ""⟩).1 = [] ∧
    ∃ m, (main_run ⟨"", "", none, none, ⟨none, none, none⟩, [], none, none,
        "", "", ""⟩).2 = .error m :=
  auth_failure_before_provisioning _ (Or.inl rfl)

end BranchOut
